import Mathlib

/-!
Shallow embedding of the aggregation/reporting layer of the
library-management backend (src/middlewares/user.auth.middleware.ts).

Conventions:
- Mongo ObjectIds (storage keys) are modelled as `Nat` (`oid` fields).
- Timestamps are integers in milliseconds (JS `Date.getTime()`).
- Monetary amounts and ratings are `ℚ` (JS numbers, exact on the inputs
  the claims quantify over).
- Collections are Lean lists; `findOne` is `List.find?`, `countDocuments`
  is a filtered length, `$skip`/`$limit` are `List.drop`/`List.take`.
- Query-string numbers arrive as `Nat`; the JS `Number(x) || d` defaulting
  in `searchBooks` maps `0` (absent/NaN/zero) to the default `d`.
-/

namespace LibraryMgmt

/-- Error kinds thrown by the middleware (`messageConstant` table). -/
inductive Err where
  | UserNotFound
  | BookNotFound
  | ErrorCountingBooks
  | InvalidPageNumber
  | ReviewAlreadyExist
  | RatingAlreadyExist
  | BookHistoryNotFound
  | NoReviewsFound
  deriving DecidableEq, Repr

/-- A book document (`Book` model): business `bookID` distinct from the
storage key `oid`; `deletedAt` is the soft-delete marker. -/
structure Book where
  oid : Nat
  bookID : String
  name : String
  author : String
  quantityAvailable : Nat
  charges : ℚ
  publishedDate : Int
  deletedAt : Option Int
  deriving DecidableEq, Repr

/-- A user document (`User` model), fields used by these operations. -/
structure UserDoc where
  oid : Nat
  email : String
  firstname : String
  lastname : String
  paidAmount : ℚ
  dueCharges : ℚ
  isActive : Bool
  deriving DecidableEq, Repr

/-- A book-gallery row (`BookGallery` model). -/
structure GalleryRow where
  bookID : Nat
  imagePath : String
  imageName : String
  deriving DecidableEq, Repr

/-- A book-rating row (`BookRating` model). -/
structure RatingRow where
  userID : Nat
  bookID : Nat
  rating : ℚ
  deriving DecidableEq, Repr

/-- A book-review row (`BookReview` model). -/
structure ReviewRow where
  userID : Nat
  bookID : Nat
  review : String
  deriving DecidableEq, Repr

/-- A `BookHistory` row as fetched by `getBookIssueHistory` after
`populate` has replaced the book reference by the book sub-document:
`bookCharges` is the book's current per-day rate, `charge` the value
persisted on the history row at return time. -/
structure HistRow where
  userID : Nat
  issueDate : Int
  submitDate : Option Int
  charge : ℚ
  bookCharges : ℚ
  deriving DecidableEq, Repr

/-- Milliseconds per day: the `1000 * 60 * 60 * 24` divisor in
`getBookIssueHistory`. -/
def msPerDay : Nat := 1000 * 60 * 60 * 24

/-- `Math.ceil((submitDate.getTime() - issueDate.getTime()) / (1000*60*60*24))`:
real division then ceiling, on millisecond timestamps. -/
def usedDaysOf (issueMs submitMs : Int) : Int :=
  ⌈((submitMs - issueMs : ℚ)) / (msPerDay : ℚ)⌉

/-- One formatted entry of the issue-history response. -/
structure FormattedHistory where
  issueDate : Int
  submitDate : Option Int
  usedDays : Option Int
  totalAmount : Option ℚ
  deriving DecidableEq, Repr

/-- The per-row mapping in `getBookIssueHistory`: a null `submitDate`
yields null `usedDays`/`totalAmount`; otherwise
`usedDays = Math.ceil(diff / msPerDay)` and
`totalAmount = (usedDays || 0) * history.bookID.charges` (the JS `|| 0`
maps the falsy value `0` to `0`, any other number to itself). -/
def formatHistory (h : HistRow) : FormattedHistory :=
  match h.submitDate with
  | none => { issueDate := h.issueDate, submitDate := none,
              usedDays := none, totalAmount := none }
  | some s =>
      let d := usedDaysOf h.issueDate s
      { issueDate := h.issueDate, submitDate := some s,
        usedDays := some d,
        totalAmount := some ((if d = 0 then 0 else (d : ℚ)) * h.bookCharges) }

/-- `getBookIssueHistory`: resolve the user by email, fetch that user's
history rows, fail `BookHistoryNotFound` when there are none, else map
each row through `formatHistory`. -/
def getBookIssueHistory (users : List UserDoc) (histories : List HistRow)
    (email : String) : Except Err (List FormattedHistory) :=
  match users.find? (fun u => u.email == email) with
  | none => .error .UserNotFound
  | some user =>
      let rows := histories.filter (fun h => h.userID == user.oid)
      if rows.isEmpty then .error .BookHistoryNotFound
      else .ok (rows.map formatHistory)

/-- `Math.ceil(a / b)` on non-negative integers with positive divisor. -/
def ceilDiv (a b : Nat) : Nat := (a + b - 1) / b

/-- `$avg` over a list of numbers: `null` on the empty list, else the
arithmetic mean. -/
def avgOpt (l : List ℚ) : Option ℚ :=
  if l.isEmpty then none else some (l.sum / (l.length : ℚ))

/-- The rating values of a given book's rating rows (the `$lookup` into
`bookratings` followed by `$ratings.rating`). -/
def ratingsFor (ratings : List RatingRow) (oid : Nat) : List ℚ :=
  (ratings.filter (fun r => r.bookID == oid)).map (fun r => r.rating)

/-- Case-insensitive substring test: `new RegExp(name, 'i')` matched
against a book name (metacharacter-free patterns). -/
def nameMatches (pat nm : String) : Bool :=
  decide ((pat.toList.map Char.toLower) <:+: (nm.toList.map Char.toLower))

/-- The `searchQuery` of `searchBooks`: `deletedAt: null` always, and when
a `bookID` or `name` parameter is present, an `$or` of exact `bookID`
match and case-insensitive name match. -/
def matchesSearch (bid? nm? : Option String) (b : Book) : Bool :=
  b.deletedAt == none &&
    (match bid?, nm? with
     | none, none => true
     | _, _ =>
         (match bid? with
          | some bid => b.bookID == bid
          | none => false) ||
         (match nm? with
          | some nm => nameMatches nm b.name
          | none => false))

/-- One element of the `searchBooks` `$project` stage. The `$year`-derived
`publishYear` field is calendar extraction and is outside every claim, so
it is not modelled. -/
structure SearchedBook where
  bookID : String
  name : String
  author : String
  stock : Nat
  rating : ℚ
  reviewCount : Nat
  coverImage : List GalleryRow
  deriving DecidableEq, Repr

/-- The `searchBooks` projection for one matched book: cover-image lookup
(gallery rows with `imageName = "coverImage"`), rating lookup with
`$avg` then `$ifNull 0`, review count. -/
def projectSearch (galleries : List GalleryRow) (ratings : List RatingRow)
    (reviews : List ReviewRow) (b : Book) : SearchedBook :=
  { bookID := b.bookID, name := b.name, author := b.author,
    stock := b.quantityAvailable,
    rating := (avgOpt (ratingsFor ratings b.oid)).getD 0,
    reviewCount := (reviews.filter (fun r => r.bookID == b.oid)).length,
    coverImage := galleries.filter
      (fun g => g.bookID == b.oid && g.imageName == "coverImage") }

structure Pagination where
  page : Nat
  pageSize : Nat
  totalPages : Nat
  deriving DecidableEq, Repr

structure SearchOutput where
  searchedBooks : List SearchedBook
  pagination : Pagination
  deriving DecidableEq, Repr

/-- `searchBooks`: default page/pageSize via `Number(x) || d`, count the
non-deleted catalog (`ErrorCountingBooks` when zero), validate the page
against `Math.ceil(totalBooks / limit)`, run the match/lookup/project
pipeline with `$skip`/`$limit`, fail `BookNotFound` on an empty slice. -/
def searchBooks (books : List Book) (galleries : List GalleryRow)
    (ratings : List RatingRow) (reviews : List ReviewRow)
    (bid? nm? : Option String) (page pageSize : Nat) :
    Except Err SearchOutput :=
  let pageNumber := if page = 0 then 1 else page
  let limit := if pageSize = 0 then 10 else pageSize
  let skip := (pageNumber - 1) * limit
  let totalBooks := (books.filter (fun b => b.deletedAt == none)).length
  if totalBooks = 0 then .error .ErrorCountingBooks
  else if pageNumber > ceilDiv totalBooks limit then .error .InvalidPageNumber
  else
    let matched := books.filter (matchesSearch bid? nm?)
    let slice :=
      ((matched.map (projectSearch galleries ratings reviews)).drop skip).take limit
    if slice.isEmpty then .error .BookNotFound
    else .ok { searchedBooks := slice,
               pagination := { page := pageNumber, pageSize := limit,
                               totalPages := ceilDiv totalBooks limit } }

/-- One element of the `getAllBookDetails` `$project` stage: unlike
`searchBooks`, its `rating` is the raw `$avg` with no `$ifNull`, hence
null when the book has no rating rows. -/
structure DetailBook where
  bookID : String
  name : String
  author : String
  stock : Nat
  publishedDate : Int
  coverImage : List GalleryRow
  gallery : List GalleryRow
  rating : Option ℚ
  reviews : List ReviewRow
  reviewCount : Nat
  deriving DecidableEq, Repr

/-- The `getAllBookDetails` projection for one active book. -/
def projectDetail (galleries : List GalleryRow) (ratings : List RatingRow)
    (reviews : List ReviewRow) (b : Book) : DetailBook :=
  { bookID := b.bookID, name := b.name, author := b.author,
    stock := b.quantityAvailable, publishedDate := b.publishedDate,
    coverImage := galleries.filter
      (fun g => g.bookID == b.oid && g.imageName == "coverImage"),
    gallery := galleries.filter (fun g => g.bookID == b.oid),
    rating := avgOpt (ratingsFor ratings b.oid),
    reviews := reviews.filter (fun r => r.bookID == b.oid),
    reviewCount := (reviews.filter (fun r => r.bookID == b.oid)).length }

structure DetailsOutput where
  books : List DetailBook
  totalBooks : Nat
  deriving DecidableEq, Repr

/-- `getAllBookDetails`: count the non-deleted catalog (`ErrorCountingBooks`
when zero), run the unpaginated pipeline over non-deleted books, fail
`BookNotFound` when empty. -/
def getAllBookDetails (books : List Book) (galleries : List GalleryRow)
    (ratings : List RatingRow) (reviews : List ReviewRow) :
    Except Err DetailsOutput :=
  let totalBooks := (books.filter (fun b => b.deletedAt == none)).length
  if totalBooks = 0 then .error .ErrorCountingBooks
  else
    let out := (books.filter (fun b => b.deletedAt == none)).map
      (projectDetail galleries ratings reviews)
    if out.isEmpty then .error .BookNotFound
    else .ok { books := out, totalBooks := totalBooks }

/-- `addBookReview`: resolve user by email, book by business `bookID`
(`Book.findOne({ bookID })`, with no soft-delete filter), reject a
duplicate (user, book) review, else insert the row. Returns the
review collection after the call. -/
def addBookReview (users : List UserDoc) (books : List Book)
    (reviews : List ReviewRow) (email bid review : String) :
    Except Err (List ReviewRow) :=
  match users.find? (fun u => u.email == email) with
  | none => .error .UserNotFound
  | some user =>
      match books.find? (fun b => b.bookID == bid) with
      | none => .error .BookNotFound
      | some book =>
          match reviews.find?
              (fun r => r.userID == user.oid && r.bookID == book.oid) with
          | some _ => .error .ReviewAlreadyExist
          | none =>
              .ok (reviews ++ [{ userID := user.oid, bookID := book.oid,
                                 review := review }])

/-- `addBookRating`: symmetric to `addBookReview` with
`RatingAlreadyExist`; the book lookup likewise ignores `deletedAt`. -/
def addBookRating (users : List UserDoc) (books : List Book)
    (ratings : List RatingRow) (email bid : String) (rating : ℚ) :
    Except Err (List RatingRow) :=
  match users.find? (fun u => u.email == email) with
  | none => .error .UserNotFound
  | some user =>
      match books.find? (fun b => b.bookID == bid) with
      | none => .error .BookNotFound
      | some book =>
          match ratings.find?
              (fun r => r.userID == user.oid && r.bookID == book.oid) with
          | some _ => .error .RatingAlreadyExist
          | none =>
              .ok (ratings ++ [{ userID := user.oid, bookID := book.oid,
                                 rating := rating }])

structure LibrarySummary where
  totalIssuedBooks : Nat
  totalSubmittedBooks : Nat
  totalNotSubmittedBooks : Nat
  totalPaidAmount : ℚ
  totalDueCharges : ℚ
  deriving DecidableEq, Repr

/-- `getLibrarySummary`: all-time row count, count of rows with a non-null
`submitDate`, their difference, and the user's current
`paidAmount`/`dueCharges` snapshot. (The code's `undefined` guard on the
two counts can never fire and is not modelled.) -/
def getLibrarySummary (users : List UserDoc) (histories : List HistRow)
    (email : String) : Except Err LibrarySummary :=
  match users.find? (fun u => u.email == email) with
  | none => .error .UserNotFound
  | some user =>
      let issued := (histories.filter (fun h => h.userID == user.oid)).length
      let submitted := (histories.filter
        (fun h => h.userID == user.oid && h.submitDate.isSome)).length
      .ok { totalIssuedBooks := issued, totalSubmittedBooks := submitted,
            totalNotSubmittedBooks := issued - submitted,
            totalPaidAmount := user.paidAmount,
            totalDueCharges := user.dueCharges }

/-- A review row of the review service's collection, keyed by the book's
numeric business ID. -/
structure SvcReview where
  bookID : Nat
  userID : Nat
  review : String
  deriving DecidableEq, Repr

/-- Modelled from the spec: `getReviewService.getReviewsCount` (the
`services/book` module is not under src/) — "total count computed first":
the number of the book's review rows. -/
def getReviewsCount (reviews : List SvcReview) (bid : Nat) : Nat :=
  (reviews.filter (fun r => r.bookID == bid)).length

/-- Modelled from the spec: `getReviewService.getReviews` (the
`services/book` module is not under src/) — "paginated list of a book's
reviews": the (skip, limit) slice of the book's review rows. -/
def getReviews (reviews : List SvcReview) (bid skip limit : Nat) :
    List SvcReview :=
  ((reviews.filter (fun r => r.bookID == bid)).drop skip).take limit

structure ReviewsOutput where
  reviews : List SvcReview
  pagination : Pagination
  deriving DecidableEq, Repr

/-- `getBookReviewsSummary`: compute the book's total review count, then
`totalPages = Math.ceil(totalReviews / limit)`; fail `InvalidPageNumber`
when the page exceeds it, else fetch the page slice and fail
`NoReviewsFound` when that slice is empty. -/
def getBookReviewsSummary (reviews : List SvcReview) (bid : Nat)
    (page pageSize : Nat) : Except Err ReviewsOutput :=
  let skip := (page - 1) * pageSize
  let totalReviews := getReviewsCount reviews bid
  let totalPages := ceilDiv totalReviews pageSize
  if page > totalPages then .error .InvalidPageNumber
  else
    let rs := getReviews reviews bid skip pageSize
    if rs.isEmpty then .error .NoReviewsFound
    else .ok { reviews := rs,
               pagination := { page := page, pageSize := pageSize,
                               totalPages := totalPages } }

/-- Fixture user for witnesses. -/
def witUser : UserDoc :=
  { oid := 1, email := "u@x", firstname := "F", lastname := "L",
    paidAmount := 10, dueCharges := 3, isActive := true }

/-- Fixture history row (submitted after one day) for witnesses. -/
def witHist : HistRow :=
  { userID := 1, issueDate := 0, submitDate := some 86400000,
    charge := 9, bookCharges := 2 }

/-- Fixture review row in the review-service collection for witnesses. -/
def witSvcReview : SvcReview := { bookID := 5, userID := 1, review := "ok" }

/-- Fixture active book for witnesses. -/
def witBook : Book :=
  { oid := 2, bookID := "BK-1", name := "Alpha", author := "A",
    quantityAvailable := 3, charges := 2, publishedDate := 0, deletedAt := none }

/-- Fixture soft-deleted book for witnesses. -/
def witBookDeleted : Book :=
  { oid := 3, bookID := "BK-2", name := "Beta", author := "B",
    quantityAvailable := 1, charges := 4, publishedDate := 0, deletedAt := some 99 }

/-- Fixture pre-existing review row for witnesses. -/
def witReview : ReviewRow := { userID := 1, bookID := 2, review := "nice" }

/-- Fixture pre-existing rating row for witnesses. -/
def witRating : RatingRow := { userID := 1, bookID := 2, rating := 4 }

end LibraryMgmt

namespace LibraryMgmt

/-- C1: for every issue/submit timestamp pair with submit ≥ issue and every
non-negative per-day rate, the charge computation of `getBookIssueHistory`
yields `usedDays = ⌈(submit − issue) / 1 day⌉` (one day = 86400 s, i.e.
86400·1000 ms on millisecond timestamps) and `charge = usedDays × rate`;
in particular when submit = issue, `usedDays = 0` and the charge is 0. -/
theorem chargeComputation_ceilDays (uid : Nat) (issue submit : Int)
    (rate fee : ℚ) (hle : issue ≤ submit) (hr : 0 ≤ rate) :
    usedDaysOf issue submit = ⌈((submit - issue : ℚ)) / ((86400 : ℚ) * 1000)⌉ ∧
    0 ≤ usedDaysOf issue submit ∧
    (formatHistory ⟨uid, issue, some submit, fee, rate⟩).usedDays =
      some (usedDaysOf issue submit) ∧
    (formatHistory ⟨uid, issue, some submit, fee, rate⟩).totalAmount =
      some ((usedDaysOf issue submit : ℚ) * rate) ∧
    (submit = issue →
      usedDaysOf issue submit = 0 ∧
      (formatHistory ⟨uid, issue, some submit, fee, rate⟩).totalAmount = some 0) := by
  refine ⟨?_, ?_, ?_, ?_, ?_⟩
  · unfold usedDaysOf msPerDay
    norm_num
  · refine Int.ceil_nonneg (div_nonneg ?_ ?_)
    · exact_mod_cast sub_nonneg.mpr hle
    · positivity
  · simp [formatHistory]
  · simp only [formatHistory]
    by_cases hd : usedDaysOf issue submit = 0
    · simp [hd]
    · simp [hd]
  · intro hsi
    subst hsi
    have hz : usedDaysOf submit submit = 0 := by
      simp [usedDaysOf]
    refine ⟨hz, ?_⟩
    simp [formatHistory, hz]

/-- Witness for C1 at issue = day 0 00:00, submit = day 3 00:00, rate 5. -/
theorem chargeComputation_ceilDays_witness :
    ((0 : Int) ≤ 259200000 ∧ (0 : ℚ) ≤ 5) ∧
    (usedDaysOf 0 259200000 =
        ⌈(((259200000 : Int) : ℚ) - ((0 : Int) : ℚ)) / ((86400 : ℚ) * 1000)⌉ ∧
      0 ≤ usedDaysOf 0 259200000 ∧
      (formatHistory ⟨7, 0, some 259200000, 2, 5⟩).usedDays =
        some (usedDaysOf 0 259200000) ∧
      (formatHistory ⟨7, 0, some 259200000, 2, 5⟩).totalAmount =
        some ((usedDaysOf 0 259200000 : ℚ) * 5) ∧
      ((259200000 : Int) = 0 →
        usedDaysOf 0 259200000 = 0 ∧
        (formatHistory ⟨7, 0, some 259200000, 2, 5⟩).totalAmount = some 0)) :=
  ⟨⟨by norm_num, by norm_num⟩,
   chargeComputation_ceilDays 7 0 259200000 5 2 (by norm_num) (by norm_num)⟩

/-- C2: for a user with at least one history row, `getBookIssueHistory`
returns one formatted entry per row; rows with a null `submitDate` yield
null `submitDate`/`usedDays`/`totalAmount`; rows with a non-null
`submitDate` get `usedDays` and `totalAmount` recomputed from the persisted
dates and the book's current per-day rate, independent of the persisted
`charge` value. -/
theorem getBookIssueHistory_recompute (users : List UserDoc)
    (histories : List HistRow) (email : String) (u : UserDoc)
    (hu : users.find? (fun x => x.email == email) = some u)
    (hne : histories.filter (fun h => h.userID == u.oid) ≠ []) :
    getBookIssueHistory users histories email =
      .ok ((histories.filter (fun h => h.userID == u.oid)).map formatHistory) ∧
    ((histories.filter (fun h => h.userID == u.oid)).map formatHistory).length =
      (histories.filter (fun h => h.userID == u.oid)).length ∧
    (∀ h : HistRow, h.submitDate = none →
      formatHistory h = { issueDate := h.issueDate, submitDate := none,
                          usedDays := none, totalAmount := none }) ∧
    (∀ (h : HistRow) (s : Int), h.submitDate = some s →
      (formatHistory h).usedDays = some (usedDaysOf h.issueDate s) ∧
      (formatHistory h).totalAmount =
        some ((usedDaysOf h.issueDate s : ℚ) * h.bookCharges)) ∧
    (∀ (h : HistRow) (c : ℚ), formatHistory { h with charge := c } = formatHistory h) := by
  refine ⟨?_, List.length_map _ _, ?_, ?_, ?_⟩
  · simp [getBookIssueHistory, hu, List.isEmpty_iff, hne]
  · intro h hn
    simp [formatHistory, hn]
  · intro h s hs
    refine ⟨by simp [formatHistory, hs], ?_⟩
    simp only [formatHistory, hs]
    by_cases hd : usedDaysOf h.issueDate s = 0
    · simp [hd]
    · simp [hd]
  · intro h c
    cases hsd : h.submitDate <;> simp [formatHistory, hsd]

/-- Witness for C2 on a one-user, one-row store. -/
theorem getBookIssueHistory_recompute_witness :
    ([witUser].find? (fun x => x.email == "u@x") = some witUser) ∧
    ([witHist].filter (fun h => h.userID == witUser.oid) ≠ []) ∧
    (getBookIssueHistory [witUser] [witHist] "u@x" =
        .ok (([witHist].filter (fun h => h.userID == witUser.oid)).map formatHistory) ∧
      (([witHist].filter (fun h => h.userID == witUser.oid)).map formatHistory).length =
        ([witHist].filter (fun h => h.userID == witUser.oid)).length ∧
      (∀ h : HistRow, h.submitDate = none →
        formatHistory h = { issueDate := h.issueDate, submitDate := none,
                            usedDays := none, totalAmount := none }) ∧
      (∀ (h : HistRow) (s : Int), h.submitDate = some s →
        (formatHistory h).usedDays = some (usedDaysOf h.issueDate s) ∧
        (formatHistory h).totalAmount =
          some ((usedDaysOf h.issueDate s : ℚ) * h.bookCharges)) ∧
      (∀ (h : HistRow) (c : ℚ), formatHistory { h with charge := c } = formatHistory h)) :=
  ⟨by rfl, by decide,
   getBookIssueHistory_recompute [witUser] [witHist] "u@x" witUser (by rfl) (by decide)⟩

/-- C7: for every existing user, `getLibrarySummary` returns the count of
all of that user's history rows, the count of those with a non-null
`submitDate`, their difference, and the user's current
`paidAmount`/`dueCharges` unchanged; the submitted count never exceeds the
issued count. -/
theorem getLibrarySummary_counts (users : List UserDoc) (histories : List HistRow)
    (email : String) (u : UserDoc)
    (hu : users.find? (fun x => x.email == email) = some u) :
    getLibrarySummary users histories email = .ok
      { totalIssuedBooks := (histories.filter (fun h => h.userID == u.oid)).length,
        totalSubmittedBooks :=
          ((histories.filter (fun h => h.userID == u.oid)).filter
            (fun h => h.submitDate.isSome)).length,
        totalNotSubmittedBooks :=
          (histories.filter (fun h => h.userID == u.oid)).length -
          ((histories.filter (fun h => h.userID == u.oid)).filter
            (fun h => h.submitDate.isSome)).length,
        totalPaidAmount := u.paidAmount, totalDueCharges := u.dueCharges } ∧
    ((histories.filter (fun h => h.userID == u.oid)).filter
      (fun h => h.submitDate.isSome)).length ≤
      (histories.filter (fun h => h.userID == u.oid)).length := by
  have hff : (histories.filter (fun h => h.userID == u.oid)).filter
      (fun h => h.submitDate.isSome) =
      histories.filter (fun h => h.userID == u.oid && h.submitDate.isSome) := by
    rw [List.filter_filter]
    congr 1
    funext h
    exact Bool.and_comm _ _
  refine ⟨?_, List.length_filter_le _ _⟩
  simp only [getLibrarySummary, hu, hff]

/-- Witness for C7 on a one-user, one-row store. -/
theorem getLibrarySummary_counts_witness :
    ([witUser].find? (fun x => x.email == "u@x") = some witUser) ∧
    (getLibrarySummary [witUser] [witHist] "u@x" = .ok
      { totalIssuedBooks := ([witHist].filter (fun h => h.userID == witUser.oid)).length,
        totalSubmittedBooks :=
          (([witHist].filter (fun h => h.userID == witUser.oid)).filter
            (fun h => h.submitDate.isSome)).length,
        totalNotSubmittedBooks :=
          ([witHist].filter (fun h => h.userID == witUser.oid)).length -
          (([witHist].filter (fun h => h.userID == witUser.oid)).filter
            (fun h => h.submitDate.isSome)).length,
        totalPaidAmount := witUser.paidAmount,
        totalDueCharges := witUser.dueCharges } ∧
      (([witHist].filter (fun h => h.userID == witUser.oid)).filter
        (fun h => h.submitDate.isSome)).length ≤
        ([witHist].filter (fun h => h.userID == witUser.oid)).length) :=
  ⟨by rfl, getLibrarySummary_counts [witUser] [witHist] "u@x" witUser (by rfl)⟩

end LibraryMgmt

namespace LibraryMgmt

/-- C5: when a (user, book) review row already exists, a further
`addBookReview` for that pair fails with `ReviewAlreadyExist` and inserts
nothing; symmetrically `addBookRating` fails with `RatingAlreadyExist`. -/
theorem duplicateReviewRating_rejected (users : List UserDoc) (books : List Book)
    (reviews : List ReviewRow) (ratings : List RatingRow)
    (email bid reviewTxt : String) (score : ℚ) (u : UserDoc) (bk : Book)
    (hu : users.find? (fun x => x.email == email) = some u)
    (hb : books.find? (fun b => b.bookID == bid) = some bk) :
    ((∃ r ∈ reviews, r.userID = u.oid ∧ r.bookID = bk.oid) →
      addBookReview users books reviews email bid reviewTxt =
        .error .ReviewAlreadyExist) ∧
    ((∃ r ∈ ratings, r.userID = u.oid ∧ r.bookID = bk.oid) →
      addBookRating users books ratings email bid score =
        .error .RatingAlreadyExist) := by
  constructor
  · rintro ⟨r, hmem, h1, h2⟩
    have hsome : (reviews.find?
        (fun x => x.userID == u.oid && x.bookID == bk.oid)).isSome := by
      rw [List.find?_isSome]
      exact ⟨r, hmem, by simp [h1, h2]⟩
    obtain ⟨r0, hr0⟩ := Option.isSome_iff_exists.mp hsome
    simp [addBookReview, hu, hb, hr0]
  · rintro ⟨r, hmem, h1, h2⟩
    have hsome : (ratings.find?
        (fun x => x.userID == u.oid && x.bookID == bk.oid)).isSome := by
      rw [List.find?_isSome]
      exact ⟨r, hmem, by simp [h1, h2]⟩
    obtain ⟨r0, hr0⟩ := Option.isSome_iff_exists.mp hsome
    simp [addBookRating, hu, hb, hr0]

/-- Witness for C5: a second review/rating by the same user on the same
book is rejected. -/
theorem duplicateReviewRating_rejected_witness :
    ([witUser].find? (fun x => x.email == "u@x") = some witUser) ∧
    ([witBook].find? (fun b => b.bookID == "BK-1") = some witBook) ∧
    (((∃ r ∈ [witReview], r.userID = witUser.oid ∧ r.bookID = witBook.oid) →
        addBookReview [witUser] [witBook] [witReview] "u@x" "BK-1" "again" =
          .error .ReviewAlreadyExist) ∧
     ((∃ r ∈ [witRating], r.userID = witUser.oid ∧ r.bookID = witBook.oid) →
        addBookRating [witUser] [witBook] [witRating] "u@x" "BK-1" 5 =
          .error .RatingAlreadyExist)) :=
  ⟨by rfl, by rfl,
   duplicateReviewRating_rejected [witUser] [witBook] [witReview] [witRating]
     "u@x" "BK-1" "again" 5 witUser witBook (by rfl) (by rfl)⟩

/-- C10: `addBookReview`/`addBookRating` resolve the book without any
soft-delete filter, so a soft-deleted book (non-null `deletedAt`) is still
found and, absent a prior review/rating by the user, the row is inserted. -/
theorem addReviewRating_ignoreSoftDelete (users : List UserDoc) (books : List Book)
    (reviews : List ReviewRow) (ratings : List RatingRow)
    (email bid reviewTxt : String) (score : ℚ) (u : UserDoc) (bk : Book) (d : Int)
    (hu : users.find? (fun x => x.email == email) = some u)
    (hb : books.find? (fun b => b.bookID == bid) = some bk)
    (hdel : bk.deletedAt = some d)
    (hnr : reviews.find? (fun r => r.userID == u.oid && r.bookID == bk.oid) = none)
    (hnt : ratings.find? (fun r => r.userID == u.oid && r.bookID == bk.oid) = none) :
    addBookReview users books reviews email bid reviewTxt =
      .ok (reviews ++ [{ userID := u.oid, bookID := bk.oid, review := reviewTxt }]) ∧
    addBookRating users books ratings email bid score =
      .ok (ratings ++ [{ userID := u.oid, bookID := bk.oid, rating := score }]) := by
  constructor
  · simp [addBookReview, hu, hb, hnr]
  · simp [addBookRating, hu, hb, hnt]

/-- Witness for C10: reviewing and rating a soft-deleted book succeeds. -/
theorem addReviewRating_ignoreSoftDelete_witness :
    ([witUser].find? (fun x => x.email == "u@x") = some witUser) ∧
    ([witBookDeleted].find? (fun b => b.bookID == "BK-2") = some witBookDeleted) ∧
    (witBookDeleted.deletedAt = some 99) ∧
    (([] : List ReviewRow).find?
      (fun r => r.userID == witUser.oid && r.bookID == witBookDeleted.oid) = none) ∧
    (([] : List RatingRow).find?
      (fun r => r.userID == witUser.oid && r.bookID == witBookDeleted.oid) = none) ∧
    (addBookReview [witUser] [witBookDeleted] [] "u@x" "BK-2" "txt" =
        .ok ([] ++ [{ userID := witUser.oid, bookID := witBookDeleted.oid,
                      review := "txt" }]) ∧
      addBookRating [witUser] [witBookDeleted] [] "u@x" "BK-2" 5 =
        .ok ([] ++ [{ userID := witUser.oid, bookID := witBookDeleted.oid,
                      rating := 5 }])) :=
  ⟨by rfl, by rfl, by rfl, by rfl, by rfl,
   addReviewRating_ignoreSoftDelete [witUser] [witBookDeleted] [] [] "u@x" "BK-2"
     "txt" 5 witUser witBookDeleted 99 (by rfl) (by rfl) (by rfl) (by rfl) (by rfl)⟩

end LibraryMgmt

namespace LibraryMgmt

/-- Closed-form characterization of `searchBooks` for non-zero page and
page-size parameters (shared by the pagination claims below). -/
theorem searchBooks_eq (books : List Book) (galleries : List GalleryRow)
    (ratings : List RatingRow) (reviews : List ReviewRow)
    (bid? nm? : Option String) (page pageSize : Nat)
    (hp : page ≠ 0) (hps : pageSize ≠ 0) :
    searchBooks books galleries ratings reviews bid? nm? page pageSize =
      (if (books.filter (fun b => b.deletedAt == none)).length = 0 then
        .error .ErrorCountingBooks
      else if ceilDiv (books.filter (fun b => b.deletedAt == none)).length pageSize < page then
        .error .InvalidPageNumber
      else if (((books.filter (matchesSearch bid? nm?)).map
            (projectSearch galleries ratings reviews)).drop
            ((page - 1) * pageSize)).take pageSize = [] then
        .error .BookNotFound
      else
        .ok { searchedBooks := (((books.filter (matchesSearch bid? nm?)).map
                (projectSearch galleries ratings reviews)).drop
                ((page - 1) * pageSize)).take pageSize,
              pagination := { page := page, pageSize := pageSize,
                              totalPages := ceilDiv (books.filter
                                (fun b => b.deletedAt == none)).length pageSize } }) := by
  simp only [searchBooks, if_neg hp, if_neg hps, List.isEmpty_iff]

/-- `searchBooks` only depends on page/pageSize through the
`Number(x) || default` resolution. -/
theorem searchBooks_resolve (books : List Book) (galleries : List GalleryRow)
    (ratings : List RatingRow) (reviews : List ReviewRow)
    (bid? nm? : Option String) (page pageSize : Nat) :
    searchBooks books galleries ratings reviews bid? nm? page pageSize =
      searchBooks books galleries ratings reviews bid? nm?
        (if page = 0 then 1 else page) (if pageSize = 0 then 10 else pageSize) := by
  by_cases hp : page = 0 <;> by_cases hps : pageSize = 0 <;>
    simp only [searchBooks, hp, hps, if_true, if_false] <;> simp

/-- Every book in a successful `searchBooks` response comes from the
projected pipeline over the match filter. -/
theorem searchBooks_ok_mem (books : List Book) (galleries : List GalleryRow)
    (ratings : List RatingRow) (reviews : List ReviewRow)
    (bid? nm? : Option String) (page pageSize : Nat) (outS : SearchOutput)
    (hS : searchBooks books galleries ratings reviews bid? nm? page pageSize = .ok outS) :
    ∀ sb ∈ outS.searchedBooks,
      sb ∈ (books.filter (matchesSearch bid? nm?)).map
        (projectSearch galleries ratings reviews) := by
  rw [searchBooks_resolve] at hS
  revert hS
  generalize hq : (if page = 0 then 1 else page) = p
  generalize hr : (if pageSize = 0 then 10 else pageSize) = q
  have hp0 : p ≠ 0 := by subst hq; split <;> simp_all
  have hq0 : q ≠ 0 := by subst hr; split <;> simp_all
  intro hS
  rw [searchBooks_eq books galleries ratings reviews bid? nm? p q hp0 hq0] at hS
  split at hS
  · exact absurd hS (by simp)
  · split at hS
    · exact absurd hS (by simp)
    · split at hS
      · exact absurd hS (by simp)
      · injection hS with h
        subst h
        intro sb hsb
        exact List.mem_of_mem_drop (List.mem_of_mem_take hsb)

/-- C3: on a catalog with at least one non-deleted book, `searchBooks`
fails with `InvalidPageNumber` exactly for pages strictly beyond
`ceil(totalBooks / pageSize)`; in-range pages never produce that error. -/
theorem searchBooks_invalidPage (books : List Book) (galleries : List GalleryRow)
    (ratings : List RatingRow) (reviews : List ReviewRow)
    (bid? nm? : Option String) (page pageSize : Nat)
    (hp : 0 < page) (hps : 0 < pageSize)
    (hcat : (books.filter (fun b => b.deletedAt == none)).length ≠ 0) :
    (ceilDiv (books.filter (fun b => b.deletedAt == none)).length pageSize < page →
      searchBooks books galleries ratings reviews bid? nm? page pageSize =
        .error .InvalidPageNumber) ∧
    (page ≤ ceilDiv (books.filter (fun b => b.deletedAt == none)).length pageSize →
      searchBooks books galleries ratings reviews bid? nm? page pageSize ≠
        .error .InvalidPageNumber) := by
  rw [searchBooks_eq books galleries ratings reviews bid? nm? page pageSize hp.ne' hps.ne']
  rw [if_neg hcat]
  constructor
  · intro hgt
    rw [if_pos hgt]
  · intro hle
    rw [if_neg (not_lt.mpr hle)]
    split
    · simp
    · simp

/-- Witness for C3 on a one-book catalog, page 1 of size 10. -/
theorem searchBooks_invalidPage_witness :
    ((0 : Nat) < 1 ∧ (0 : Nat) < 10 ∧
      ([witBook].filter (fun b => b.deletedAt == none)).length ≠ 0) ∧
    ((ceilDiv ([witBook].filter (fun b => b.deletedAt == none)).length 10 < 1 →
        searchBooks [witBook] [] [] [] none none 1 10 = .error .InvalidPageNumber) ∧
     (1 ≤ ceilDiv ([witBook].filter (fun b => b.deletedAt == none)).length 10 →
        searchBooks [witBook] [] [] [] none none 1 10 ≠ .error .InvalidPageNumber)) :=
  ⟨⟨by decide, by decide, by decide⟩,
   searchBooks_invalidPage [witBook] [] [] [] none none 1 10
     (by decide) (by decide) (by decide)⟩

/-- C6: a zero count of non-deleted books makes `searchBooks` fail with
`ErrorCountingBooks` (checked before page validation and search), while a
valid page whose result slice is empty fails with `BookNotFound`. -/
theorem searchBooks_zeroCatalog (books : List Book) (galleries : List GalleryRow)
    (ratings : List RatingRow) (reviews : List ReviewRow)
    (bid? nm? : Option String) (page pageSize : Nat)
    (hp : 0 < page) (hps : 0 < pageSize) :
    ((books.filter (fun b => b.deletedAt == none)).length = 0 →
      searchBooks books galleries ratings reviews bid? nm? page pageSize =
        .error .ErrorCountingBooks) ∧
    ((books.filter (fun b => b.deletedAt == none)).length ≠ 0 →
      page ≤ ceilDiv (books.filter (fun b => b.deletedAt == none)).length pageSize →
      (((books.filter (matchesSearch bid? nm?)).map
          (projectSearch galleries ratings reviews)).drop
          ((page - 1) * pageSize)).take pageSize = [] →
      searchBooks books galleries ratings reviews bid? nm? page pageSize =
        .error .BookNotFound) := by
  rw [searchBooks_eq books galleries ratings reviews bid? nm? page pageSize hp.ne' hps.ne']
  constructor
  · intro h0
    rw [if_pos h0]
  · intro hne hle hempty
    rw [if_neg hne, if_neg (not_lt.mpr hle), if_pos hempty]

/-- Witness for C6 at page 1 of size 10. -/
theorem searchBooks_zeroCatalog_witness :
    ((0 : Nat) < 1 ∧ (0 : Nat) < 10) ∧
    (((([] : List Book).filter (fun b => b.deletedAt == none)).length = 0 →
        searchBooks [] [] [] [] none none 1 10 = .error .ErrorCountingBooks) ∧
     ((([] : List Book).filter (fun b => b.deletedAt == none)).length ≠ 0 →
      1 ≤ ceilDiv (([] : List Book).filter (fun b => b.deletedAt == none)).length 10 →
      (((([] : List Book).filter (matchesSearch none none)).map
          (projectSearch [] [] [])).drop ((1 - 1) * 10)).take 10 = [] →
      searchBooks [] [] [] [] none none 1 10 = .error .BookNotFound)) :=
  ⟨⟨by decide, by decide⟩,
   searchBooks_zeroCatalog [] [] [] [] none none 1 10 (by decide) (by decide)⟩

/-- C9: the `totalPages` of a successful `searchBooks` response equals
`ceil(N / pageSize)` for N the catalog-wide count of non-deleted books,
and the `InvalidPageNumber` check is performed against that same N,
independent of the bookID/name filter parameters. -/
theorem searchBooks_catalogWidePages (books : List Book) (galleries : List GalleryRow)
    (ratings : List RatingRow) (reviews : List ReviewRow)
    (bidA nmA bidB nmB : Option String) (page pageSize : Nat)
    (hp : 0 < page) (hps : 0 < pageSize) :
    (∀ out : SearchOutput,
      searchBooks books galleries ratings reviews bidA nmA page pageSize = .ok out →
      out.pagination.totalPages =
        ceilDiv (books.filter (fun b => b.deletedAt == none)).length pageSize) ∧
    (searchBooks books galleries ratings reviews bidA nmA page pageSize =
        .error .InvalidPageNumber ↔
      ((books.filter (fun b => b.deletedAt == none)).length ≠ 0 ∧
        ceilDiv (books.filter (fun b => b.deletedAt == none)).length pageSize < page)) ∧
    (searchBooks books galleries ratings reviews bidA nmA page pageSize =
        .error .InvalidPageNumber ↔
      searchBooks books galleries ratings reviews bidB nmB page pageSize =
        .error .InvalidPageNumber) := by
  have key : ∀ (bid? nm? : Option String),
      (searchBooks books galleries ratings reviews bid? nm? page pageSize =
          .error .InvalidPageNumber ↔
        ((books.filter (fun b => b.deletedAt == none)).length ≠ 0 ∧
          ceilDiv (books.filter (fun b => b.deletedAt == none)).length pageSize < page)) := by
    intro bid? nm?
    rw [searchBooks_eq books galleries ratings reviews bid? nm? page pageSize hp.ne' hps.ne']
    constructor
    · intro h
      by_cases h0 : (books.filter (fun b => b.deletedAt == none)).length = 0
      · rw [if_pos h0] at h
        exact absurd h (by simp)
      · rw [if_neg h0] at h
        by_cases hlt : ceilDiv (books.filter (fun b => b.deletedAt == none)).length pageSize < page
        · exact ⟨h0, hlt⟩
        · rw [if_neg hlt] at h
          split at h
          · exact absurd h (by simp)
          · exact absurd h (by simp)
    · rintro ⟨h0, hlt⟩
      rw [if_neg h0, if_pos hlt]
  refine ⟨?_, key bidA nmA, (key bidA nmA).trans (key bidB nmB).symm⟩
  intro out hout
  rw [searchBooks_eq books galleries ratings reviews bidA nmA page pageSize hp.ne' hps.ne'] at hout
  split at hout
  · exact absurd hout (by simp)
  · split at hout
    · exact absurd hout (by simp)
    · split at hout
      · exact absurd hout (by simp)
      · injection hout with h
        subst h
        rfl

/-- Witness for C9: one-book catalog, two different filter pairs. -/
theorem searchBooks_catalogWidePages_witness :
    ((0 : Nat) < 1 ∧ (0 : Nat) < 10) ∧
    ((∀ out : SearchOutput,
        searchBooks [witBook] [] [] [] (some "BK-1") none 1 10 = .ok out →
        out.pagination.totalPages =
          ceilDiv ([witBook].filter (fun b => b.deletedAt == none)).length 10) ∧
     (searchBooks [witBook] [] [] [] (some "BK-1") none 1 10 =
          .error .InvalidPageNumber ↔
        (([witBook].filter (fun b => b.deletedAt == none)).length ≠ 0 ∧
          ceilDiv ([witBook].filter (fun b => b.deletedAt == none)).length 10 < 1)) ∧
     (searchBooks [witBook] [] [] [] (some "BK-1") none 1 10 =
          .error .InvalidPageNumber ↔
        searchBooks [witBook] [] [] [] none (some "zzz") 1 10 =
          .error .InvalidPageNumber)) :=
  ⟨⟨by decide, by decide⟩,
   searchBooks_catalogWidePages [witBook] [] [] [] (some "BK-1") none
     none (some "zzz") 1 10 (by decide) (by decide)⟩

/-- C8: `getBookReviewsSummary` fails with `InvalidPageNumber` exactly when
the page exceeds `ceil(totalReviews / pageSize)` for the book's total
review count (computed first), and otherwise fails with `NoReviewsFound`
exactly when the fetched page slice is empty. -/
theorem getBookReviewsSummary_pageChecks (reviews : List SvcReview)
    (bid page pageSize : Nat) (hp : 0 < page) (hps : 0 < pageSize) :
    (getBookReviewsSummary reviews bid page pageSize = .error .InvalidPageNumber ↔
      ceilDiv (getReviewsCount reviews bid) pageSize < page) ∧
    (page ≤ ceilDiv (getReviewsCount reviews bid) pageSize →
      (getBookReviewsSummary reviews bid page pageSize = .error .NoReviewsFound ↔
        getReviews reviews bid ((page - 1) * pageSize) pageSize = [])) := by
  constructor
  · constructor
    · intro h
      by_cases hlt : ceilDiv (getReviewsCount reviews bid) pageSize < page
      · exact hlt
      · exfalso
        simp only [getBookReviewsSummary, if_neg hlt] at h
        split at h
        · exact absurd h (by simp)
        · exact absurd h (by simp)
    · intro hlt
      simp only [getBookReviewsSummary]
      rw [if_pos hlt]
  · intro hle
    simp only [getBookReviewsSummary, if_neg (not_lt.mpr hle)]
    constructor
    · intro h
      by_cases he : getReviews reviews bid ((page - 1) * pageSize) pageSize = []
      · exact he
      · rw [if_neg (by simp [List.isEmpty_iff, he])] at h
        exact absurd h (by simp)
    · intro he
      rw [if_pos (by simp [List.isEmpty_iff, he])]

/-- Witness for C8 on a one-review collection, page 1 of size 10. -/
theorem getBookReviewsSummary_pageChecks_witness :
    ((0 : Nat) < 1 ∧ (0 : Nat) < 10) ∧
    ((getBookReviewsSummary [witSvcReview] 5 1 10 = .error .InvalidPageNumber ↔
        ceilDiv (getReviewsCount [witSvcReview] 5) 10 < 1) ∧
     (1 ≤ ceilDiv (getReviewsCount [witSvcReview] 5) 10 →
       (getBookReviewsSummary [witSvcReview] 5 1 10 = .error .NoReviewsFound ↔
         getReviews [witSvcReview] 5 ((1 - 1) * 10) 10 = []))) :=
  ⟨⟨by decide, by decide⟩,
   getBookReviewsSummary_pageChecks [witSvcReview] 5 1 10 (by decide) (by decide)⟩

/-- C4 counterexample: on a one-book catalog with no rating rows,
`getAllBookDetails` returns a null `rating`, not the number 0 the claim
asserts for both aggregate views. -/
theorem detailsRating_nullNotZero_cex :
    (getAllBookDetails [witBook] [] [] []).map
      (fun o => o.books.map (fun b => b.rating)) = .ok [none] ∧
    (getAllBookDetails [witBook] [] [] []).map
      (fun o => o.books.map (fun b => b.rating)) ≠ .ok [some 0] := by
  have h1 : (getAllBookDetails [witBook] [] [] []).map
      (fun o => o.books.map (fun b => b.rating)) = .ok [none] := rfl
  refine ⟨h1, ?_⟩
  rw [h1]
  simp

/-- C4 amended: every entry of a `searchBooks` response is the projection
of a catalog book `b` (so in particular shares its `bookID`) and carries
`rating = average of that same book's rating rows, 0 when there are none`,
while every entry of a `getAllBookDetails` response is the detail
projection of a catalog book `b` and carries the raw average of that
book's rating rows — `null` (not 0) when there are none. -/
theorem ratingAggregates_amended (books : List Book) (galleries : List GalleryRow)
    (ratings : List RatingRow) (reviews : List ReviewRow)
    (bid? nm? : Option String) (page pageSize : Nat)
    (outS : SearchOutput) (outD : DetailsOutput)
    (hS : searchBooks books galleries ratings reviews bid? nm? page pageSize = .ok outS)
    (hD : getAllBookDetails books galleries ratings reviews = .ok outD) :
    (∀ sb ∈ outS.searchedBooks, ∃ b ∈ books,
      sb = projectSearch galleries ratings reviews b ∧
      sb.bookID = b.bookID ∧
      sb.rating = (if ratingsFor ratings b.oid = [] then 0
        else (ratingsFor ratings b.oid).sum / ((ratingsFor ratings b.oid).length : ℚ))) ∧
    (∀ db ∈ outD.books, ∃ b ∈ books,
      db = projectDetail galleries ratings reviews b ∧
      db.bookID = b.bookID ∧
      db.rating = (if ratingsFor ratings b.oid = [] then none
        else some ((ratingsFor ratings b.oid).sum /
          ((ratingsFor ratings b.oid).length : ℚ)))) := by
  constructor
  · intro sb hsb
    have hsb2 := searchBooks_ok_mem books galleries ratings reviews bid? nm?
      page pageSize outS hS sb hsb
    obtain ⟨b, hbmem, rfl⟩ := List.mem_map.mp hsb2
    refine ⟨b, (List.mem_filter.mp hbmem).1, rfl, rfl, ?_⟩
    by_cases hrs : ratingsFor ratings b.oid = []
    · simp [projectSearch, avgOpt, hrs]
    · simp [projectSearch, avgOpt, List.isEmpty_iff, hrs]
  · intro db hdb
    simp only [getAllBookDetails] at hD
    split at hD
    · exact absurd hD (by simp)
    · split at hD
      · exact absurd hD (by simp)
      · injection hD with h
        subst h
        obtain ⟨b, hbmem, rfl⟩ := List.mem_map.mp hdb
        refine ⟨b, (List.mem_filter.mp hbmem).1, rfl, rfl, ?_⟩
        by_cases hrs : ratingsFor ratings b.oid = []
        · simp [projectDetail, avgOpt, hrs]
        · simp [projectDetail, avgOpt, List.isEmpty_iff, hrs]

/-- Witness for the amended C4 on a one-book catalog with no ratings. -/
theorem ratingAggregates_amended_witness :
    (searchBooks [witBook] [] [] [] none none 1 10 =
        .ok { searchedBooks := [projectSearch [] [] [] witBook],
              pagination := { page := 1, pageSize := 10, totalPages := 1 } }) ∧
    (getAllBookDetails [witBook] [] [] [] =
        .ok { books := [projectDetail [] [] [] witBook], totalBooks := 1 }) ∧
    ((∀ sb ∈ ({ searchedBooks := [projectSearch [] [] [] witBook],
                pagination := { page := 1, pageSize := 10,
                                totalPages := 1 } } : SearchOutput).searchedBooks,
        ∃ b ∈ [witBook],
          sb = projectSearch [] [] [] b ∧
          sb.bookID = b.bookID ∧
          sb.rating = (if ratingsFor [] b.oid = [] then 0
            else (ratingsFor [] b.oid).sum / ((ratingsFor [] b.oid).length : ℚ))) ∧
     (∀ db ∈ ({ books := [projectDetail [] [] [] witBook],
                totalBooks := 1 } : DetailsOutput).books,
        ∃ b ∈ [witBook],
          db = projectDetail [] [] [] b ∧
          db.bookID = b.bookID ∧
          db.rating = (if ratingsFor [] b.oid = [] then none
            else some ((ratingsFor [] b.oid).sum /
              ((ratingsFor [] b.oid).length : ℚ))))) :=
  ⟨by rfl, by rfl,
   ratingAggregates_amended [witBook] [] [] [] none none 1 10
     { searchedBooks := [projectSearch [] [] [] witBook],
       pagination := { page := 1, pageSize := 10, totalPages := 1 } }
     { books := [projectDetail [] [] [] witBook], totalBooks := 1 }
     (by rfl) (by rfl)⟩

end LibraryMgmt
